import Mathlib

/-!
# Verification of the ai-math request/response orchestration layer

This file gives a shallow embedding, in Lean 4, of the core of the ai-math
repository:

* the backend action dispatcher (`api/gemini.ts`, the Vercel serverless
  `handler`): method/credential validation, action dispatch for
  `generateInitialData`, `solveProblem` and `chat`, JSON-parsing of provider
  output, and the newline-delimited chat stream relay;
* the frontend service client (`services/geminiService.ts`): `postToAction`,
  `generateInitialData` with its offline fallback, `solveProblem`,
  `streamChatResponse`;
* the chat component's line-buffered stream reader (`components/Chat.tsx`,
  inside `handleSend`).

JavaScript strings are modelled as `List Char` (the TextDecoder reassembles
UTF-8 code points across byte-level chunk boundaries, so character-granularity
chunking is the faithful model of the byte stream).  JSON values are modelled
by the inductive type `Json`; `JSON.parse` is modelled by an executable
recursive-descent parser `parseL`, and the only use of `JSON.stringify` in the
code, `JSON.stringify((\x7b text: chunk.text \x7d))`, by `stringifyTextRecord`.
Numbers are kept as raw lexemes (no claim inspects numeric values, and this
avoids floating point); the number grammar is modelled without exponents.
-/

namespace AiMath

/-- JSON values.  Object fields are kept in textual order; duplicate keys are
possible in the parse result and property lookup takes the last occurrence,
as `JSON.parse` does in JavaScript. -/
inductive Json where
  | null
  | bool (b : Bool)
  | num (raw : List Char)
  | str (s : List Char)
  | arr (elems : List Json)
  | obj (fields : List (List Char × Json))
deriving Repr

/-! ## String escaping (model of JSON.stringify on strings) -/

/-- Escaping of a single character inside a JSON string literal, as
`JSON.stringify` does.  (Control characters other than the named escapes,
which `JSON.stringify` writes as `\uXXXX`, are left literal in this model;
none of the verified properties distinguishes the two, since neither form
contains a raw newline.) -/
def escapeChar (c : Char) : List Char :=
  if c = '"' then ['\\', '"']
  else if c = '\\' then ['\\', '\\']
  else if c = '\n' then ['\\', 'n']
  else if c = '\r' then ['\\', 'r']
  else if c = '\t' then ['\\', 't']
  else if c = '\x08' then ['\\', 'b']
  else if c = '\x0c' then ['\\', 'f']
  else [c]

/-- Escape every character of a string. -/
def escapeL : List Char → List Char
  | [] => []
  | c :: cs => escapeChar c ++ escapeL cs

/-- `JSON.stringify((\x7b text: t \x7d))`: the exact serialised form of a chat
stream record as written by the dispatcher. -/
def stringifyTextRecord (t : List Char) : List Char :=
  '\x7b' :: '"' :: 't' :: 'e' :: 'x' :: 't' :: '"' :: ':' :: '"' ::
    (escapeL t ++ ['"', '\x7d'])

/-! ## JSON parsing (model of JSON.parse) -/

/-- JSON insignificant whitespace. -/
def isWsJson (c : Char) : Bool :=
  c = ' ' || c = '\t' || c = '\n' || c = '\r'

/-- Drop leading JSON whitespace. -/
def skipWs : List Char → List Char
  | [] => []
  | c :: cs => if isWsJson c then skipWs cs else c :: cs

/-- Decode one escape character after a backslash. -/
def unescape (c : Char) : Option Char :=
  if c = '"' then some '"'
  else if c = '\\' then some '\\'
  else if c = '/' then some '/'
  else if c = 'b' then some '\x08'
  else if c = 'f' then some '\x0c'
  else if c = 'n' then some '\n'
  else if c = 'r' then some '\r'
  else if c = 't' then some '\t'
  else none

/-- Parse the body of a JSON string literal (the opening quote already
consumed), returning the decoded string and the input after the closing
quote. -/
def parseStringBody : List Char → Option (List Char × List Char)
  | [] => none
  | '"' :: cs => some ([], cs)
  | '\\' :: [] => none
  | '\\' :: e :: cs =>
    match unescape e with
    | none => none
    | some d =>
      match parseStringBody cs with
      | none => none
      | some (s, r) => some (d :: s, r)
  | c :: cs =>
    match parseStringBody cs with
    | none => none
    | some (s, r) => some (c :: s, r)

/-- Decimal digit test. -/
def isDigitCh (c : Char) : Bool := '0' ≤ c && c ≤ '9'

/-- Take a maximal run of decimal digits. -/
def takeDigits : List Char → (List Char × List Char)
  | [] => ([], [])
  | c :: cs =>
    if isDigitCh c then
      match takeDigits cs with
      | (d, r) => (c :: d, r)
    else ([], c :: cs)

/-- Parse a JSON number lexeme (optional minus, digits, optional fraction;
exponents are outside the model), returning the raw lexeme. -/
def parseNumber (cs : List Char) : Option (List Char × List Char) :=
  let (neg, cs1) :=
    match cs with
    | '-' :: r => (['-'], r)
    | _ => ([], cs)
  match takeDigits cs1 with
  | ([], _) => none
  | (ds, r) =>
    match r with
    | '.' :: r2 =>
      match takeDigits r2 with
      | ([], _) => none
      | (fs, r3) => some (neg ++ ds ++ '.' :: fs, r3)
    | _ => some (neg ++ ds, r)

mutual

/-- Fuel-indexed recursive-descent parser for one JSON value. -/
def parseVal : Nat → List Char → Option (Json × List Char)
  | 0, _ => none
  | fuel + 1, cs =>
    match skipWs cs with
    | '"' :: rest =>
      match parseStringBody rest with
      | none => none
      | some (s, r) => some (Json.str s, r)
    | '\x7b' :: rest =>
      match skipWs rest with
      | '\x7d' :: r => some (Json.obj [], r)
      | other => parseMembers fuel [] other
    | '[' :: rest =>
      match skipWs rest with
      | ']' :: r => some (Json.arr [], r)
      | other => parseElems fuel [] other
    | 't' :: 'r' :: 'u' :: 'e' :: rest => some (Json.bool true, rest)
    | 'f' :: 'a' :: 'l' :: 's' :: 'e' :: rest => some (Json.bool false, rest)
    | 'n' :: 'u' :: 'l' :: 'l' :: rest => some (Json.null, rest)
    | other =>
      match parseNumber other with
      | none => none
      | some (raw, r) => some (Json.num raw, r)

/-- Parse the members of a JSON object (after the opening brace, first
non-`\x7d` input already under way). -/
def parseMembers : Nat → List (List Char × Json) → List Char →
    Option (Json × List Char)
  | 0, _, _ => none
  | fuel + 1, acc, cs =>
    match skipWs cs with
    | '"' :: rest =>
      match parseStringBody rest with
      | none => none
      | some (key, r1) =>
        match skipWs r1 with
        | ':' :: r2 =>
          match parseVal fuel r2 with
          | none => none
          | some (v, r3) =>
            match skipWs r3 with
            | ',' :: r4 => parseMembers fuel (acc ++ [(key, v)]) r4
            | '\x7d' :: r4 => some (Json.obj (acc ++ [(key, v)]), r4)
            | _ => none
        | _ => none
    | _ => none

/-- Parse the elements of a JSON array (after the opening bracket, first
non-`]` input already under way). -/
def parseElems : Nat → List Json → List Char → Option (Json × List Char)
  | 0, _, _ => none
  | fuel + 1, acc, cs =>
    match parseVal fuel cs with
    | none => none
    | some (v, r1) =>
      match skipWs r1 with
      | ',' :: r2 => parseElems fuel (acc ++ [v]) r2
      | ']' :: r2 => some (Json.arr (acc ++ [v]), r2)
      | _ => none

end

/-- `JSON.parse`: parse a complete JSON document (trailing whitespace
allowed, anything else after the value is an error).  The fuel
`cs.length + 1` is enough because every recursive step consumes input. -/
def parseL (cs : List Char) : Option Json :=
  match parseVal (cs.length + 1) cs with
  | none => none
  | some (j, rest) => if skipWs rest = [] then some j else none

/-! ## JavaScript semantics helpers -/

/-- JavaScript whitespace, for `String.prototype.trim` (the common cases;
the exotic Unicode space characters play no role in the claims). -/
def isWsJs (c : Char) : Bool :=
  c = ' ' || c = '\t' || c = '\n' || c = '\r' || c = '\x0b' || c = '\x0c'

/-- `s.trim()`: strip leading and trailing whitespace. -/
def trimL (cs : List Char) : List Char :=
  ((cs.dropWhile isWsJs).reverse.dropWhile isWsJs).reverse

/-- Property lookup in an object's field list; the LAST occurrence of a key
wins, matching what `JSON.parse` produces for duplicate keys. -/
def lookupField : List (List Char × Json) → List Char → Option Json
  | [], _ => none
  | (k, v) :: rest, key =>
    match lookupField rest key with
    | some r => some r
    | none => if k = key then some v else none

/-- JavaScript property access `base[key]`.  Accessing a property of `null`
throws a TypeError (`.error`); on any other non-object value it yields
`undefined` (`.ok none`); on an object it yields the field or `undefined`. -/
def jsGet : Json → List Char → Except (List Char) (Option Json)
  | Json.null, _ => Except.error ("TypeError: Cannot read properties of null".data)
  | Json.obj fs, key => Except.ok (lookupField fs key)
  | _, _ => Except.ok none

/-- JavaScript truthiness of a JSON value (`if (chunk.text)`).  A number is
truthy iff it is nonzero, which for the exponent-free lexemes produced by
`parseNumber` means it contains a nonzero digit. -/
def truthy : Json → Bool
  | Json.null => false
  | Json.bool b => b
  | Json.num raw => raw.any fun c => isDigitCh c && c != '0'
  | Json.str s => !s.isEmpty
  | Json.arr _ => true
  | Json.obj _ => true

/-- JavaScript string conversion of a JSON value, for `+=` and template
literals: strings are themselves, arrays join their elements with commas,
plain objects become "[object Object]". -/
def jsToString : Json → List Char
  | Json.null => "null".data
  | Json.bool true => "true".data
  | Json.bool false => "false".data
  | Json.num raw => raw
  | Json.str s => s
  | Json.arr xs => List.intercalate [','] (xs.attach.map fun x => jsToString x.1)
  | Json.obj _ => "[object Object]".data
decreasing_by
  have := List.sizeOf_lt_of_mem x.2
  simp_wf
  omega

/-- Template-literal interpolation of a possibly-`undefined` value. -/
def templ : Option Json → List Char
  | none => "undefined".data
  | some j => jsToString j

/-! ## The chat client's line-buffered stream reader (Chat.tsx, handleSend)

The reader state is the incomplete-line buffer and the accumulated model
text (`modelResponseText`).  `processLine` is the body of the
`for (const line of lines)` loop; `processChunk` is one iteration of the
`while (true)` read loop; `runReader` is the whole loop over the list of
chunks delivered by the network. -/

/-- `s.split(String.fromCharCode(10))` on strings: the list of
newline-separated pieces.  The result is always nonempty and none of its
pieces contains a newline; `"a".split` gives `["a"]`, `"a\n".split` gives
`["a", ""]`. -/
def splitNl : List Char → List (List Char)
  | [] => [[]]
  | c :: cs =>
    if c = '\n' then [] :: splitNl cs
    else
      match splitNl cs with
      | [] => [[c]]
      | l :: ls => (c :: l) :: ls

structure ReaderState where
  buffer : List Char
  acc : List Char
deriving Repr, DecidableEq

/-- One line of the stream, as handled by the loop body: blank lines are
skipped; a line that fails `JSON.parse`, or whose `chunk.text` access
throws, is caught and skipped; a falsy `text` is skipped; a truthy `text`
is appended to the accumulated model text. -/
def processLine (acc : List Char) (line : List Char) : List Char :=
  if trimL line = [] then acc
  else
    match parseL line with
    | none => acc
    | some chunk =>
      match jsGet chunk ("text".data) with
      | Except.error _ => acc
      | Except.ok none => acc
      | Except.ok (some v) => if truthy v then acc ++ jsToString v else acc

/-- One iteration of the read loop: append the decoded chunk to the buffer,
split on newlines, keep the final (incomplete) piece as the new buffer, and
process every complete line. -/
def processChunk (st : ReaderState) (chunk : List Char) : ReaderState :=
  let parts := splitNl (st.buffer ++ chunk)
  { buffer := (parts.getLast?).getD []
    acc := parts.dropLast.foldl processLine st.acc }

/-- The whole read loop, from the initial empty state. -/
def runReader (chunks : List (List Char)) : ReaderState :=
  chunks.foldl processChunk { buffer := [], acc := [] }

/-! ## Provider-facing data (api/gemini.ts)

The response schemas are declarative configuration passed to the provider;
the dispatcher never inspects them.  They are transcribed from the three
constants at the top of `api/gemini.ts`.  `Schema` fields, in constructor
order: type, description, enum, nullable, properties, items, required. -/

inductive SchemaType where
  | OBJECT
  | STRING
  | NUMBER
  | ARRAY
deriving Repr, DecidableEq

inductive Schema where
  | mk (type : SchemaType)
       (description : Option String)
       (enum : List String)
       (nullable : Bool)
       (properties : List (String × Schema))
       (items : Option Schema)
       (required : List String)
deriving Repr

/-- A plain string schema entry. -/
def strS : Schema := Schema.mk SchemaType.STRING none [] false [] none []

/-- A string schema entry with a description. -/
def strSD (d : String) : Schema := Schema.mk SchemaType.STRING (some d) [] false [] none []

/-- `solutionResponseSchema` from api/gemini.ts. -/
def solutionResponseSchema : Schema :=
  Schema.mk SchemaType.OBJECT none [] false
    [ ("status", Schema.mk SchemaType.STRING none ["solved", "unsolved"] false [] none [])
    , ("title", strS)
    , ("classification", strSD "The branch of mathematics the problem belongs to (e.g., Algebra, Calculus).")
    , ("difficulty", Schema.mk SchemaType.STRING none ["Easy", "Medium", "Hard", "Advanced"] false [] none [])
    , ("difficultyRating", Schema.mk SchemaType.NUMBER (some "A numerical rating from 1 to 10.") [] false [] none [])
    , ("difficultyJustification", strSD "Justification for the difficulty rating.")
    , ("keyConcepts", Schema.mk SchemaType.ARRAY (some "An array of key mathematical concepts or theorems required.") [] false [] (some strS) [])
    , ("reasoning", strSD "A high-level overview of the solution approach.")
    , ("solution", Schema.mk SchemaType.ARRAY none [] true [] (some strS) [])
    , ("explanation", Schema.mk SchemaType.STRING none [] true [] none [])
    , ("alternativeMethods", Schema.mk SchemaType.STRING (some "A brief description of an alternative solution method.") [] true [] none [])
    , ("commonPitfalls", Schema.mk SchemaType.STRING (some "A brief description of common mistakes.") [] true [] none [])
    ]
    none
    ["status", "title", "classification", "difficulty", "difficultyRating", "difficultyJustification", "keyConcepts", "reasoning"]

/-- `exampleProblemsSchema` from api/gemini.ts. -/
def exampleProblemsSchema : Schema :=
  Schema.mk SchemaType.OBJECT none [] false
    [ ("problems", Schema.mk SchemaType.ARRAY none [] false []
        (some (Schema.mk SchemaType.OBJECT none [] false
          [("id", strS), ("problem", strS)] none ["id", "problem"])) [])
    ]
    none ["problems"]

/-- `mathFactSchema` from api/gemini.ts. -/
def mathFactSchema : Schema :=
  Schema.mk SchemaType.OBJECT none [] false
    [("fact", strSD "A surprising and fun math fact, explained simply.")]
    none ["fact"]

/-- Modelled from the spec: `constants.ts` is referenced by the dispatcher
but is not part of the provided source tree.  The solver system prompt is an
opaque string; the dispatcher only concatenates it into a system
instruction. -/
def SOLVER_SYSTEM_INSTRUCTION : String := "SOLVER_SYSTEM_INSTRUCTION"

/-- Modelled from the spec: the chat system prompt from `constants.ts`,
likewise opaque to the dispatcher. -/
def CHAT_SYSTEM_INSTRUCTION : String := "CHAT_SYSTEM_INSTRUCTION"

/-! ## Domain types (types.ts, as used by the dispatcher and the client) -/

/-- Chat roles; the TypeScript `ChatRole` enum has exactly the values
`user` and `model`. -/
inductive ChatRole where
  | user
  | model
deriving Repr, DecidableEq

/-- A chat history record `(\x7b role, text \x7d)`. -/
structure ChatMessage where
  role : ChatRole
  text : List Char
deriving Repr, DecidableEq

/-- One part of a provider-native `Content` turn. -/
structure ContentPart where
  text : List Char
deriving Repr, DecidableEq

/-- A provider-native turn `(\x7b role, parts \x7d)`. -/
structure Content where
  role : ChatRole
  parts : List ContentPart
deriving Repr, DecidableEq

/-- `SolveInput`: either a plain text problem or an image (mimeType, base64
data) plus a text prompt. -/
inductive SolveInput where
  | text (s : List Char)
  | withImage (mimeType imgData prompt : List Char)
deriving Repr, DecidableEq

/-- One part of a multipart `generateContent` request. -/
inductive Part where
  | inlineData (mimeType imgData : List Char)
  | textPart (t : List Char)
deriving Repr, DecidableEq

/-- The `contents` of a `generateContent` request: a plain prompt string or
multipart content. -/
inductive GenContents where
  | text (s : List Char)
  | parts (ps : List Part)
deriving Repr, DecidableEq

/-- The `config` of a `generateContent` request. -/
structure GenConfig where
  systemInstruction : Option (List Char) := none
  responseMimeType : String
  responseSchema : Schema
deriving Repr

/-- A `generateContent` request as issued by the dispatcher. -/
structure GenRequest where
  model : String
  contents : GenContents
  config : GenConfig
deriving Repr

/-- The `config` of `ai.chats.create`. -/
structure ChatConfig where
  systemInstruction : List Char
deriving Repr

/-- The chat interaction issued by the dispatcher: `ai.chats.create`
followed by `chat.sendMessageStream((\x7b message \x7d))`. -/
structure ChatRequest where
  model : String
  config : ChatConfig
  history : List Content
  message : List Char
deriving Repr

/-- One provider call, as recorded in the handler's call log. -/
inductive ProviderCall where
  | generateContent (req : GenRequest)
  | chatSendMessageStream (req : ChatRequest)
deriving Repr

/-- Outcome of an awaited `generateContent` call: a response whose `.text`
is the given string, or a rejection carrying an error message. -/
inductive GenResult where
  | ok (text : List Char)
  | error (msg : List Char)
deriving Repr, DecidableEq

/-- Outcome of the chat stream: the list of `chunk.text` deltas streamed by
the provider (after which the upstream stream ends), or a rejection. -/
inductive ChatStreamResult where
  | ok (chunks : List (List Char))
  | error (msg : List Char)
deriving Repr, DecidableEq

/-- The provider oracle: what the external service answers to each
request. -/
structure Provider where
  generateContent : GenRequest → GenResult
  sendMessageStream : ChatRequest → ChatStreamResult

/-! ## The backend action dispatcher (api/gemini.ts, `handler`) -/

/-- The parsed request body `(\x7b action, payload \x7d)`.  A missing
`action` is `none` (destructuring yields `undefined`). -/
structure Payload where
  language : Option (List Char) := none
  problem : Option SolveInput := none
  history : List ChatMessage := []
  message : List Char := []
deriving Repr

structure RequestBody where
  action : Option (List Char)
  payload : Payload
deriving Repr

/-- An incoming HTTP request: its method and parsed JSON body. -/
structure Request where
  method : List Char
  body : RequestBody
deriving Repr

/-- An outgoing HTTP response: a single JSON body with a status code, or a
chunked stream (with its headers) whose writes are listed in order; the
response is ended after the last write. -/
inductive HandlerResponse where
  | json (status : Nat) (body : Json)
  | stream (contentType : String) (transferEncoding : String)
      (written : List (List Char))
deriving Repr

/-- `(\x7b error: msg \x7d)` as a JSON body. -/
def errBody (msg : String) : Json := Json.obj [("error".data, Json.str msg.data)]

/-- The catch-all 500 body: error message interpolated into
`An internal server error occurred: ...`. -/
def errBody500 (msg : List Char) : Json :=
  Json.obj [("error".data,
    Json.str ("An internal server error occurred: ".data ++ msg))]

/-- The message of the SyntaxError thrown by `JSON.parse` on malformed
input (engine-specific in JavaScript; a fixed representative here). -/
def jsonParseErrorMsg : List Char := "Unexpected token in JSON".data

/-- The message of the TypeError thrown by reading `.image` of an
`undefined` problem. -/
def undefinedReadErrorMsg : List Char :=
  "TypeError: Cannot read properties of undefined".data

/-- JavaScript truthiness of `process.env.API_KEY` (`undefined` and the
empty string are falsy). -/
def envTruthy : Option String → Bool
  | none => false
  | some s => !s.isEmpty

/-- `(\x7b examples: ..., fact: ... \x7d)` under `res.json`: object fields
whose value is `undefined` are omitted from the serialised body. -/
def jsObjOpt (fields : List (List Char × Option Json)) : Json :=
  Json.obj (fields.filterMap fun p => p.2.map fun v => (p.1, v))

/-- `language === char(ar) ? Arabic : English` (an absent `language` is not
`ar`, hence English). -/
def langName (language : Option (List Char)) : String :=
  if language = some ("ar".data) then "Arabic" else "English"

/-- The first `generateContent` request of `generateInitialData` (example
problems). -/
def examplesRequest (language : Option (List Char)) : GenRequest :=
  { model := "gemini-2.5-flash"
    contents := GenContents.text ("Generate 4 diverse and simple math problems suitable for an educational app. Provide a unique id for each. Your response must be in " ++ langName language ++ ".").data
    config := { responseMimeType := "application/json"
                responseSchema := exampleProblemsSchema } }

/-- The second `generateContent` request of `generateInitialData` (math
fact). -/
def factRequest (language : Option (List Char)) : GenRequest :=
  { model := "gemini-2.5-flash"
    contents := GenContents.text ("Provide one surprising and fun math fact of the day. Keep it short and easy to understand. Your response must be in " ++ langName language ++ ".").data
    config := { responseMimeType := "application/json"
                responseSchema := mathFactSchema } }

/-- The `generateContent` request of `solveProblem`: plain text becomes a
string prompt, an image problem becomes multipart contents. -/
def solveRequest (language : Option (List Char)) (prob : SolveInput) : GenRequest :=
  { model := "gemini-2.5-flash"
    contents :=
      match prob with
      | SolveInput.text s => GenContents.text s
      | SolveInput.withImage mime d prompt =>
        GenContents.parts [Part.inlineData mime d, Part.textPart prompt]
    config := { systemInstruction := some ((SOLVER_SYSTEM_INSTRUCTION ++ "\n\nYou must provide your entire response in " ++ langName language ++ ".").data)
                responseMimeType := "application/json"
                responseSchema := solutionResponseSchema } }

/-- `history.map(msg => (\x7b role: msg.role, parts: [(\x7b text: msg.text \x7d)] \x7d))`:
element-wise conversion of the chat history into provider-native turns. -/
def toGeminiHistory (history : List ChatMessage) : List Content :=
  history.map fun msg => { role := msg.role, parts := [{ text := msg.text }] }

/-- The chat interaction built by the dispatcher from the `chat` payload. -/
def chatRequestOf (payload : Payload) : ChatRequest :=
  { model := "gemini-2.5-flash"
    config := { systemInstruction := (CHAT_SYSTEM_INSTRUCTION ++ "\n\nYou must provide your entire response in " ++ langName payload.language ++ ".").data }
    history := toGeminiHistory payload.history
    message := payload.message }

/-- The backend action dispatcher (`api/gemini.ts`, default export
`handler`).  Inputs: the `API_KEY` environment variable, the HTTP request,
and an oracle for the provider's answers.  Output: the HTTP response
together with the ordered log of provider calls issued.  The `try/catch` of
the source is rendered by returning the catch's 500 response at each point
where the JavaScript would throw: a rejected provider promise, a
`JSON.parse` failure, a property read on `null`/`undefined`.  (When both
`Promise.all` branches reject, JavaScript surfaces whichever rejection
happens first; the model deterministically surfaces the first request's.) -/
def handler (apiKey : Option String) (req : Request) (p : Provider) :
    HandlerResponse × List ProviderCall :=
  if req.method ≠ "POST".data then
    (HandlerResponse.json 405 (errBody "Method Not Allowed"), [])
  else if !envTruthy apiKey then
    (HandlerResponse.json 500 (errBody "API_KEY is not configured on the server."), [])
  else if req.body.action = some ("generateInitialData".data) then
    let req1 := examplesRequest req.body.payload.language
    let req2 := factRequest req.body.payload.language
    let calls := [ProviderCall.generateContent req1, ProviderCall.generateContent req2]
    match p.generateContent req1, p.generateContent req2 with
    | GenResult.error m, _ => (HandlerResponse.json 500 (errBody500 m), calls)
    | GenResult.ok _, GenResult.error m => (HandlerResponse.json 500 (errBody500 m), calls)
    | GenResult.ok t1, GenResult.ok t2 =>
      match parseL (trimL t1) with
      | none => (HandlerResponse.json 500 (errBody500 jsonParseErrorMsg), calls)
      | some examplesParsed =>
        match parseL (trimL t2) with
        | none => (HandlerResponse.json 500 (errBody500 jsonParseErrorMsg), calls)
        | some factParsed =>
          match jsGet examplesParsed ("problems".data) with
          | Except.error m => (HandlerResponse.json 500 (errBody500 m), calls)
          | Except.ok problems =>
            match jsGet factParsed ("fact".data) with
            | Except.error m => (HandlerResponse.json 500 (errBody500 m), calls)
            | Except.ok fact =>
              (HandlerResponse.json 200
                (jsObjOpt [("examples".data, problems), ("fact".data, fact)]), calls)
  else if req.body.action = some ("solveProblem".data) then
    match req.body.payload.problem with
    | none =>
      -- `problem.image` with `problem` undefined throws before any provider call
      (HandlerResponse.json 500 (errBody500 undefinedReadErrorMsg), [])
    | some prob =>
      let req1 := solveRequest req.body.payload.language prob
      match p.generateContent req1 with
      | GenResult.error m =>
        (HandlerResponse.json 500 (errBody500 m), [ProviderCall.generateContent req1])
      | GenResult.ok t =>
        match parseL (trimL t) with
        | none =>
          (HandlerResponse.json 500 (errBody500 jsonParseErrorMsg), [ProviderCall.generateContent req1])
        | some j =>
          (HandlerResponse.json 200 j, [ProviderCall.generateContent req1])
  else if req.body.action = some ("chat".data) then
    let creq := chatRequestOf req.body.payload
    match p.sendMessageStream creq with
    | ChatStreamResult.error m =>
      (HandlerResponse.json 500 (errBody500 m), [ProviderCall.chatSendMessageStream creq])
    | ChatStreamResult.ok chunks =>
      (HandlerResponse.stream "text/plain; charset=utf-8" "chunked"
        (chunks.map fun t => stringifyTextRecord t ++ ['\n']),
        [ProviderCall.chatSendMessageStream creq])
  else
    (HandlerResponse.json 400 (errBody "Invalid action"), [])

/-! ## The frontend service client (services/geminiService.ts) -/

/-- A `fetch` response as the client observes it: status (from which `.ok`
is derived), status text, the result of `response.json()` (`none` when the
body is not valid JSON, in which case that promise rejects), and the chunks
of `response.body`. -/
structure FetchResponse where
  status : Nat
  statusText : List Char
  jsonBody : Option Json
  bodyChunks : List (List Char)
deriving Repr

/-- `response.ok`: status in the 2xx range. -/
def FetchResponse.ok (r : FetchResponse) : Bool :=
  decide (200 ≤ r.status) && decide (r.status < 300)

/-- Outcome of `fetch`: a response, or a network-level rejection. -/
inductive FetchOutcome where
  | response (r : FetchResponse)
  | networkError (msg : List Char)
deriving Repr

/-- What `postToAction` resolves to: the parsed JSON body, or (for the
`chat` action) the raw response object. -/
inductive PostOk where
  | json (j : Json)
  | stream (resp : FetchResponse)
deriving Repr

/-- The body sent by `postToAction`:
`JSON.stringify((\x7b action, payload \x7d))` before serialisation. -/
def postRequestBody (action : List Char) (payload : Json) : Json :=
  Json.obj [("action".data, Json.str action), ("payload".data, payload)]

/-- `postToAction` from services/geminiService.ts.  POSTs
`postRequestBody action payload` to `/api/gemini`; on a non-2xx response it
throws `API Error: <statusText> - <errorBody.error>` (with
`(\x7b error: 'Failed to parse error response' \x7d)` as the error body if
the response is not JSON); on success it returns the response object itself
for the `chat` action and the parsed JSON body otherwise (a body that fails
to parse rejects). -/
def postToAction (action : List Char) (payload : Json) (fetch : Json → FetchOutcome) :
    Except (List Char) PostOk :=
  match fetch (postRequestBody action payload) with
  | FetchOutcome.networkError m => Except.error m
  | FetchOutcome.response r =>
    if !r.ok then
      let errorBody : Json := r.jsonBody.getD
        (Json.obj [("error".data, Json.str ("Failed to parse error response".data))])
      match jsGet errorBody ("error".data) with
      | Except.error m => Except.error m
      | Except.ok errField =>
        Except.error ("API Error: ".data ++ r.statusText ++ " - ".data ++ templ errField)
    else if action = "chat".data then
      Except.ok (PostOk.stream r)
    else
      match r.jsonBody with
      | some j => Except.ok (PostOk.json j)
      | none => Except.error jsonParseErrorMsg

/-- The offline fallback value returned by `generateInitialData` when the
call fails, keyed by the language selector. -/
def fallbackInitialData (language : List Char) : Json :=
  Json.obj
    [ ("examples".data, Json.arr
        [ Json.obj [("id".data, Json.str ("fallback-1".data)),
            ("problem".data, Json.str ((if language = "ar".data then "حل لـ س: 3س - 7 = 5" else "Solve for x: 3x - 7 = 5") : String).data)]
        , Json.obj [("id".data, Json.str ("fallback-2".data)),
            ("problem".data, Json.str ((if language = "ar".data then "ما هي مساحة دائرة نصف قطرها 5؟" else "What is the area of a circle with a radius of 5?") : String).data)]
        ])
    , ("fact".data, Json.str ((if language = "ar".data then "الصفر هو العدد الصحيح الوحيد الذي ليس موجبًا ولا سالبًا." else "Zero is the only integer that is neither positive nor negative.") : String).data)
    ]

/-- `generateInitialData` from services/geminiService.ts: posts the action
and, on ANY failure, resolves with the deterministic fallback instead of
rethrowing.  (The `stream` branch is unreachable: `postToAction` returns
the raw response only for the `chat` action, see
`postToAction_nonchat_no_stream`.) -/
def generateInitialData (language : List Char) (fetch : Json → FetchOutcome) : Json :=
  match postToAction ("generateInitialData".data)
      (Json.obj [("language".data, Json.str language)]) fetch with
  | Except.ok (PostOk.json j) => j
  | Except.ok (PostOk.stream _) => Json.null
  | Except.error _ => fallbackInitialData language

/-- `solveProblem` from services/geminiService.ts: posts the action; on ANY
failure it discards the original error and throws the fixed message.  (The
`stream` branch is unreachable as above.) -/
def solveProblem (problem : Json) (language : List Char) (fetch : Json → FetchOutcome) :
    Except (List Char) Json :=
  match postToAction ("solveProblem".data)
      (Json.obj [("problem".data, problem), ("language".data, Json.str language)])
      fetch with
  | Except.ok (PostOk.json j) => Except.ok j
  | Except.ok (PostOk.stream _) => Except.ok Json.null
  | Except.error _ =>
    Except.error ("Failed to get a valid response from the AI. Please try again.".data)

/-- Serialisation of a chat message into the posted payload. -/
def chatMessageToJson (m : ChatMessage) : Json :=
  Json.obj
    [ ("role".data, Json.str (match m.role with
        | ChatRole.user => "user".data
        | ChatRole.model => "model".data))
    , ("text".data, Json.str m.text) ]

/-- `streamChatResponse` from services/geminiService.ts: posts the `chat`
action and returns `response.body` (its chunks, here); on failure it throws
the fixed message.  (The `json` branch is unreachable for the `chat`
action.) -/
def streamChatResponse (history : List ChatMessage) (message : List Char)
    (language : List Char) (fetch : Json → FetchOutcome) :
    Except (List Char) (List (List Char)) :=
  match postToAction ("chat".data)
      (Json.obj [("history".data, Json.arr (history.map chatMessageToJson)),
        ("message".data, Json.str message),
        ("language".data, Json.str language)]) fetch with
  | Except.ok (PostOk.stream r) => Except.ok r.bodyChunks
  | Except.ok (PostOk.json _) => Except.ok []
  | Except.error _ => Except.error ("Failed to start chat stream.".data)

/-! ## Reference formulation of the reader (proof device)

`stepChar` processes the stream one character at a time; it is the
specification against which the chunk-buffered reader is proved
chunking-independent. -/

/-- One character of the stream: a newline completes the buffered line and
processes it; any other character extends the buffer. -/
def stepChar (st : ReaderState) (c : Char) : ReaderState :=
  if c = '\n' then { buffer := [], acc := processLine st.acc st.buffer }
  else { buffer := st.buffer ++ [c], acc := st.acc }

/-- A concrete provider oracle, used to instantiate universally quantified
statements at concrete inputs. -/
def oracleProvider : Provider :=
  { generateContent := fun _ => GenResult.ok ("null".data)
    sendMessageStream := fun _ => ChatStreamResult.ok [] }

/-- A provider whose answers to the two `generateInitialData` requests are
schema-conforming JSON texts. -/
def initialDataProvider : Provider :=
  { generateContent := fun r =>
      if r.contents = (examplesRequest none).contents then
        GenResult.ok ("\x7b\"problems\":[]\x7d".data)
      else
        GenResult.ok ("\x7b\"fact\":\"F\"\x7d".data)
    sendMessageStream := fun _ => ChatStreamResult.error [] }


/-- A provider whose every generated text is not valid JSON. -/
def badJsonProvider : Provider :=
  { generateContent := fun _ => GenResult.ok ("oops".data)
    sendMessageStream := fun _ => ChatStreamResult.error [] }


/-- A provider that streams two chat deltas. -/
def chatProvider : Provider :=
  { generateContent := fun _ => GenResult.error []
    sendMessageStream := fun _ => ChatStreamResult.ok ["Hi".data, "!".data] }


/-! # Theorems -/

/-- C2: the dispatcher validates method and credentials before any provider
call: a non-POST request gets status 405 with body
`(\x7b error: 'Method Not Allowed' \x7d)`, and a POST request with `API_KEY`
unset gets status 500 with body
`(\x7b error: 'API_KEY is not configured on the server.' \x7d)`; in both
cases the provider call log is empty. -/
theorem method_and_key_guard (apiKey : Option String) (req : Request) (p : Provider) :
    (req.method ≠ "POST".data →
      handler apiKey req p = (HandlerResponse.json 405 (errBody "Method Not Allowed"), [])) ∧
    (req.method = "POST".data → apiKey = none →
      handler apiKey req p =
        (HandlerResponse.json 500 (errBody "API_KEY is not configured on the server."), [])) := by
  constructor
  · intro h
    simp [handler, h]
  · intro h hk
    subst hk
    simp [handler, h, envTruthy]

/-- Witness for C2 at concrete inputs: a GET request is rejected with 405
and an unconfigured POST with 500. -/
theorem method_and_key_guard_witness :
    (handler (some "k") { method := "GET".data, body := { action := none, payload := {} } } oracleProvider
      = (HandlerResponse.json 405 (errBody "Method Not Allowed"), [])) ∧
    (handler none { method := "POST".data, body := { action := none, payload := {} } } oracleProvider
      = (HandlerResponse.json 500 (errBody "API_KEY is not configured on the server."), [])) :=
  ⟨(method_and_key_guard (some "k") { method := "GET".data, body := { action := none, payload := {} } } oracleProvider).1 (by decide),
   (method_and_key_guard none { method := "POST".data, body := { action := none, payload := {} } } oracleProvider).2 rfl rfl⟩

/-- C8: a POST request with a configured key whose action is none of the
three known actions (including a missing action) gets status 400 with body
`(\x7b error: 'Invalid action' \x7d)` and no provider call is made. -/
theorem invalid_action_400 (apiKey : Option String) (req : Request) (p : Provider)
    (hm : req.method = "POST".data) (hk : envTruthy apiKey = true)
    (ha : req.body.action ≠ some ("generateInitialData".data))
    (hb : req.body.action ≠ some ("solveProblem".data))
    (hc : req.body.action ≠ some ("chat".data)) :
    handler apiKey req p = (HandlerResponse.json 400 (errBody "Invalid action"), []) := by
  simp [handler, hm, hk, ha, hb, hc]

/-- Witness for C8: a POST with action `frobnicate` gets 400. -/
theorem invalid_action_400_witness :
    handler (some "k")
      { method := "POST".data, body := { action := some ("frobnicate".data), payload := {} } }
      oracleProvider
      = (HandlerResponse.json 400 (errBody "Invalid action"), []) :=
  invalid_action_400 (some "k")
    { method := "POST".data, body := { action := some ("frobnicate".data), payload := {} } }
    oracleProvider rfl rfl (by decide) (by decide) (by decide)

/-- C7: a successful `generateInitialData` request issues exactly two
provider calls — first the example-problems request, then the math-fact
request — and returns a 200 JSON object whose `examples` field is the
`problems` field parsed from the first call's text and whose `fact` field
is the `fact` field parsed from the second call's text. -/
theorem generateInitialData_two_calls (apiKey : Option String) (req : Request) (p : Provider)
    (t1 t2 : List Char) (e f : Json) (problems fact : Option Json)
    (hm : req.method = "POST".data) (hk : envTruthy apiKey = true)
    (ha : req.body.action = some ("generateInitialData".data))
    (h1 : p.generateContent (examplesRequest req.body.payload.language) = GenResult.ok t1)
    (h2 : p.generateContent (factRequest req.body.payload.language) = GenResult.ok t2)
    (hp1 : parseL (trimL t1) = some e) (hp2 : parseL (trimL t2) = some f)
    (hg1 : jsGet e ("problems".data) = Except.ok problems)
    (hg2 : jsGet f ("fact".data) = Except.ok fact) :
    handler apiKey req p =
      (HandlerResponse.json 200 (jsObjOpt [("examples".data, problems), ("fact".data, fact)]),
       [ProviderCall.generateContent (examplesRequest req.body.payload.language),
        ProviderCall.generateContent (factRequest req.body.payload.language)]) := by
  simp [handler, hm, hk, ha, h1, h2, hp1, hp2, hg1, hg2]

/-- Witness for C7 at a concrete request against `initialDataProvider`. -/
theorem generateInitialData_two_calls_witness :
    handler (some "k")
      { method := "POST".data, body := { action := some ("generateInitialData".data), payload := {} } }
      initialDataProvider =
      (HandlerResponse.json 200
        (jsObjOpt [("examples".data, some (Json.arr [])), ("fact".data, some (Json.str ("F".data)))]),
       [ProviderCall.generateContent (examplesRequest none),
        ProviderCall.generateContent (factRequest none)]) :=
  generateInitialData_two_calls (some "k")
    { method := "POST".data, body := { action := some ("generateInitialData".data), payload := {} } }
    initialDataProvider
    ("\x7b\"problems\":[]\x7d".data) ("\x7b\"fact\":\"F\"\x7d".data)
    (Json.obj [("problems".data, Json.arr [])]) (Json.obj [("fact".data, Json.str ("F".data))])
    (some (Json.arr [])) (some (Json.str ("F".data)))
    rfl rfl rfl rfl rfl rfl rfl rfl rfl

/-- C3: for `generateInitialData` and `solveProblem`, a provider text that
is not parseable as JSON never yields a 200 response: the `JSON.parse`
failure is caught and surfaced as a status-500 response whose body is
`(\x7b error: ... \x7d)` carrying the error message. -/
theorem parse_failure_500 (apiKey : Option String) (req : Request) (p : Provider)
    (hm : req.method = "POST".data) (hk : envTruthy apiKey = true) :
    (∀ t1 t2, req.body.action = some ("generateInitialData".data) →
      p.generateContent (examplesRequest req.body.payload.language) = GenResult.ok t1 →
      p.generateContent (factRequest req.body.payload.language) = GenResult.ok t2 →
      parseL (trimL t1) = none →
      handler apiKey req p =
        (HandlerResponse.json 500 (errBody500 jsonParseErrorMsg),
         [ProviderCall.generateContent (examplesRequest req.body.payload.language),
          ProviderCall.generateContent (factRequest req.body.payload.language)])) ∧
    (∀ t1 t2 e, req.body.action = some ("generateInitialData".data) →
      p.generateContent (examplesRequest req.body.payload.language) = GenResult.ok t1 →
      p.generateContent (factRequest req.body.payload.language) = GenResult.ok t2 →
      parseL (trimL t1) = some e → parseL (trimL t2) = none →
      handler apiKey req p =
        (HandlerResponse.json 500 (errBody500 jsonParseErrorMsg),
         [ProviderCall.generateContent (examplesRequest req.body.payload.language),
          ProviderCall.generateContent (factRequest req.body.payload.language)])) ∧
    (∀ prob t, req.body.action = some ("solveProblem".data) →
      req.body.payload.problem = some prob →
      p.generateContent (solveRequest req.body.payload.language prob) = GenResult.ok t →
      parseL (trimL t) = none →
      handler apiKey req p =
        (HandlerResponse.json 500 (errBody500 jsonParseErrorMsg),
         [ProviderCall.generateContent (solveRequest req.body.payload.language prob)])) := by
  refine ⟨?_, ?_, ?_⟩
  · intro t1 t2 ha h1 h2 hp1
    simp [handler, hm, hk, ha, h1, h2, hp1]
  · intro t1 t2 e ha h1 h2 hp1 hp2
    simp [handler, hm, hk, ha, h1, h2, hp1, hp2]
  · intro prob t ha hprob h1 hp
    simp [handler, hm, hk, ha, hprob, h1, hp]

/-- Witness for C3: against `badJsonProvider`, both `generateInitialData`
and `solveProblem` answer 500 with the parse error surfaced. -/
theorem parse_failure_500_witness :
    (handler (some "k")
      { method := "POST".data, body := { action := some ("generateInitialData".data), payload := {} } }
      badJsonProvider =
      (HandlerResponse.json 500 (errBody500 jsonParseErrorMsg),
       [ProviderCall.generateContent (examplesRequest none),
        ProviderCall.generateContent (factRequest none)])) ∧
    (handler (some "k")
      { method := "POST".data,
        body := { action := some ("solveProblem".data),
                  payload := { problem := some (SolveInput.text ("1+1".data)) } } }
      badJsonProvider =
      (HandlerResponse.json 500 (errBody500 jsonParseErrorMsg),
       [ProviderCall.generateContent (solveRequest none (SolveInput.text ("1+1".data)))])) :=
  ⟨(parse_failure_500 (some "k")
      { method := "POST".data, body := { action := some ("generateInitialData".data), payload := {} } }
      badJsonProvider rfl rfl).1 ("oops".data) ("oops".data) rfl rfl rfl rfl,
   (parse_failure_500 (some "k")
      { method := "POST".data,
        body := { action := some ("solveProblem".data),
                  payload := { problem := some (SolveInput.text ("1+1".data)) } } }
      badJsonProvider rfl rfl).2.2 (SolveInput.text ("1+1".data)) ("oops".data) rfl rfl rfl rfl⟩

/-- C5: the dispatcher converts the chat history element-wise into
provider-native turns, preserving length, order and roles: the i-th turn is
`(\x7b role: history[i].role, parts: [(\x7b text: history[i].text \x7d)] \x7d)`,
and the chat call's history is exactly this conversion. -/
theorem chat_history_conversion (history : List ChatMessage) (payload : Payload) :
    ((toGeminiHistory history).length = history.length) ∧
    (∀ i, (toGeminiHistory history).get? i =
      (history.get? i).map fun msg => { role := msg.role, parts := [{ text := msg.text }] }) ∧
    ((chatRequestOf payload).history = toGeminiHistory payload.history) := by
  refine ⟨by simp [toGeminiHistory], ?_, rfl⟩
  intro i
  simp [toGeminiHistory]

/-- Shape of every dispatcher response: a single JSON body, or — only in
the `chat` branch, and only when the provider stream succeeds — a
`text/plain` chunked stream whose writes are exactly the serialised
newline-terminated text records of the provider's deltas, ended after the
last one. -/
theorem handler_response_shape (apiKey : Option String) (req : Request) (p : Provider) :
    (∃ s b, (handler apiKey req p).1 = HandlerResponse.json s b) ∨
    (req.body.action = some ("chat".data) ∧ ∃ texts,
      p.sendMessageStream (chatRequestOf req.body.payload) = ChatStreamResult.ok texts ∧
      (handler apiKey req p).1 =
        HandlerResponse.stream "text/plain; charset=utf-8" "chunked"
          (texts.map fun t => stringifyTextRecord t ++ ['\n'])) := by
  unfold handler
  split_ifs with h1 h2 h3 h4 h5
  · exact Or.inl ⟨_, _, rfl⟩
  · exact Or.inl ⟨_, _, rfl⟩
  · rcases hg1 : p.generateContent (examplesRequest req.body.payload.language) with t1 | m
    · rcases hg2 : p.generateContent (factRequest req.body.payload.language) with t2 | m
      · cases hp1 : parseL (trimL t1) with
        | none => exact Or.inl (by simp only [hg1, hg2, hp1]; exact ⟨_, _, rfl⟩)
        | some e =>
          cases hp2 : parseL (trimL t2) with
          | none => exact Or.inl (by simp only [hg1, hg2, hp1, hp2]; exact ⟨_, _, rfl⟩)
          | some f =>
            rcases hj1 : jsGet e ("problems".data) with m | problems
            · exact Or.inl (by simp only [hg1, hg2, hp1, hp2, hj1]; exact ⟨_, _, rfl⟩)
            · rcases hj2 : jsGet f ("fact".data) with m | fact
              · exact Or.inl (by simp only [hg1, hg2, hp1, hp2, hj1, hj2]; exact ⟨_, _, rfl⟩)
              · exact Or.inl (by simp only [hg1, hg2, hp1, hp2, hj1, hj2]; exact ⟨_, _, rfl⟩)
      · exact Or.inl (by simp only [hg1, hg2]; exact ⟨_, _, rfl⟩)
    · exact Or.inl (by simp only [hg1]; exact ⟨_, _, rfl⟩)
  · cases hprob : req.body.payload.problem with
    | none => exact Or.inl (by simp only [hprob]; exact ⟨_, _, rfl⟩)
    | some prob =>
      rcases hg : p.generateContent (solveRequest req.body.payload.language prob) with t | m
      · cases hp : parseL (trimL t) with
        | none => exact Or.inl (by simp only [hprob, hg, hp]; exact ⟨_, _, rfl⟩)
        | some j => exact Or.inl (by simp only [hprob, hg, hp]; exact ⟨_, _, rfl⟩)
      · exact Or.inl (by simp only [hprob, hg]; exact ⟨_, _, rfl⟩)
  · rcases hs : p.sendMessageStream (chatRequestOf req.body.payload) with chunks | m
    · refine Or.inr ⟨h5, chunks, ?_, ?_⟩ <;> simp [hs]
    · exact Or.inl (by simp only [hs]; exact ⟨_, _, rfl⟩)
  · exact Or.inl ⟨_, _, rfl⟩

/-- C1: the client's request body is `(\x7b action, payload \x7d)`; the
dispatcher's response is a single JSON object whenever the action is
`generateInitialData` or `solveProblem`, and a stream response occurs only
for the `chat` action, with `text/plain` chunked headers, consisting of the
newline-delimited serialised `(\x7b text \x7d)` records of the provider's
deltas, the response being ended after the upstream stream ends. -/
theorem action_contract (apiKey : Option String) (req : Request) (p : Provider) :
    (∀ action payload, postRequestBody action payload =
      Json.obj [("action".data, Json.str action), ("payload".data, payload)]) ∧
    ((req.body.action = some ("generateInitialData".data) ∨
      req.body.action = some ("solveProblem".data)) →
      ∃ s b, (handler apiKey req p).1 = HandlerResponse.json s b) ∧
    (∀ ct te w, (handler apiKey req p).1 = HandlerResponse.stream ct te w →
      req.body.action = some ("chat".data) ∧ ct = "text/plain; charset=utf-8" ∧
      te = "chunked" ∧
      ∃ texts, p.sendMessageStream (chatRequestOf req.body.payload) = ChatStreamResult.ok texts ∧
        w = texts.map fun t => stringifyTextRecord t ++ ['\n']) := by
  refine ⟨fun _ _ => rfl, ?_, ?_⟩
  · intro ha
    rcases handler_response_shape apiKey req p with h | ⟨hchat, _, _, _⟩
    · exact h
    · rcases ha with ha | ha <;> rw [ha] at hchat <;> exact absurd (Option.some.inj hchat) (by decide)
  · intro ct te w h
    rcases handler_response_shape apiKey req p with ⟨s, b, hj⟩ | ⟨hchat, texts, hs, hresp⟩
    · rw [h] at hj; cases hj
    · rw [h] at hresp
      injection hresp with e1 e2 e3
      exact ⟨hchat, e1, e2, texts, hs, e3⟩

/-- Witness for C1: at a `generateInitialData` request the response is a
single JSON object, and at a `chat` request the stream conclusion holds of
the concrete stream response. -/
theorem action_contract_witness :
    (∃ s b, (handler (some "k")
      { method := "POST".data, body := { action := some ("generateInitialData".data), payload := {} } }
      oracleProvider).1 = HandlerResponse.json s b) ∧
    ((({ method := "POST".data, body := { action := some ("chat".data), payload := {} } } : Request)).body.action
        = some ("chat".data) ∧
      ("text/plain; charset=utf-8" : String) = "text/plain; charset=utf-8" ∧
      ("chunked" : String) = "chunked" ∧
      ∃ texts, chatProvider.sendMessageStream (chatRequestOf ({} : Payload)) = ChatStreamResult.ok texts ∧
        (["Hi".data, "!".data].map fun t => stringifyTextRecord t ++ ['\n']) =
          texts.map fun t => stringifyTextRecord t ++ ['\n']) :=
  ⟨(action_contract (some "k")
      { method := "POST".data, body := { action := some ("generateInitialData".data), payload := {} } }
      oracleProvider).2.1 (Or.inl rfl),
   (action_contract (some "k")
      { method := "POST".data, body := { action := some ("chat".data), payload := {} } }
      chatProvider).2.2 "text/plain; charset=utf-8" "chunked"
      (["Hi".data, "!".data].map fun t => stringifyTextRecord t ++ ['\n']) rfl⟩

/-- C4: whenever the initial-data call fails — `postToAction` throws for
any reason — `generateInitialData` returns, instead of failing, a fixed
fallback value determined solely by the language argument: two example
problems and a fact string, Arabic when the language is `ar` and English
otherwise. -/
theorem generateInitialData_fallback (language : List Char) (fetch : Json → FetchOutcome)
    (m : List Char)
    (h : postToAction ("generateInitialData".data)
      (Json.obj [("language".data, Json.str language)]) fetch = Except.error m) :
    generateInitialData language fetch =
      (if language = "ar".data then
        Json.obj
          [ ("examples".data, Json.arr
              [ Json.obj [("id".data, Json.str ("fallback-1".data)),
                  ("problem".data, Json.str (("حل لـ س: 3س - 7 = 5" : String).data))]
              , Json.obj [("id".data, Json.str ("fallback-2".data)),
                  ("problem".data, Json.str (("ما هي مساحة دائرة نصف قطرها 5؟" : String).data))]
              ])
          , ("fact".data, Json.str (("الصفر هو العدد الصحيح الوحيد الذي ليس موجبًا ولا سالبًا." : String).data)) ]
       else
        Json.obj
          [ ("examples".data, Json.arr
              [ Json.obj [("id".data, Json.str ("fallback-1".data)),
                  ("problem".data, Json.str (("Solve for x: 3x - 7 = 5" : String).data))]
              , Json.obj [("id".data, Json.str ("fallback-2".data)),
                  ("problem".data, Json.str (("What is the area of a circle with a radius of 5?" : String).data))]
              ])
          , ("fact".data, Json.str (("Zero is the only integer that is neither positive nor negative." : String).data)) ]) := by
  unfold generateInitialData
  rw [h]
  by_cases hl : language = "ar".data <;> simp [fallbackInitialData, hl]

/-- Witness for C4: with the network down, the English fallback is
returned. -/
theorem generateInitialData_fallback_witness :
    generateInitialData ("en".data) (fun _ => FetchOutcome.networkError ("ECONNREFUSED".data)) =
      (if ("en".data : List Char) = "ar".data then
        Json.obj
          [ ("examples".data, Json.arr
              [ Json.obj [("id".data, Json.str ("fallback-1".data)),
                  ("problem".data, Json.str (("حل لـ س: 3س - 7 = 5" : String).data))]
              , Json.obj [("id".data, Json.str ("fallback-2".data)),
                  ("problem".data, Json.str (("ما هي مساحة دائرة نصف قطرها 5؟" : String).data))]
              ])
          , ("fact".data, Json.str (("الصفر هو العدد الصحيح الوحيد الذي ليس موجبًا ولا سالبًا." : String).data)) ]
       else
        Json.obj
          [ ("examples".data, Json.arr
              [ Json.obj [("id".data, Json.str ("fallback-1".data)),
                  ("problem".data, Json.str (("Solve for x: 3x - 7 = 5" : String).data))]
              , Json.obj [("id".data, Json.str ("fallback-2".data)),
                  ("problem".data, Json.str (("What is the area of a circle with a radius of 5?" : String).data))]
              ])
          , ("fact".data, Json.str (("Zero is the only integer that is neither positive nor negative." : String).data)) ]) :=
  generateInitialData_fallback ("en".data)
    (fun _ => FetchOutcome.networkError ("ECONNREFUSED".data)) ("ECONNREFUSED".data) rfl

/-- Anatomy of a successful `postToAction`: the fetch produced a 2xx
response, and the result is the parsed JSON body — or, exactly for the
`chat` action, the raw response. -/
theorem postToAction_ok_cases (action : List Char) (payload : Json)
    (fetch : Json → FetchOutcome) (v : PostOk)
    (h : postToAction action payload fetch = Except.ok v) :
    ∃ r, fetch (postRequestBody action payload) = FetchOutcome.response r ∧ r.ok = true ∧
      ((action ≠ "chat".data ∧ ∃ j, r.jsonBody = some j ∧ v = PostOk.json j) ∨
       (action = "chat".data ∧ v = PostOk.stream r)) := by
  unfold postToAction at h
  cases hf : fetch (postRequestBody action payload) with
  | networkError m => rw [hf] at h; cases h
  | response r =>
    rw [hf] at h
    by_cases hok : r.ok
    · simp only [hok, Bool.not_true, Bool.false_eq_true, if_false] at h
      by_cases hact : action = "chat".data
      · rw [if_pos hact] at h
        exact ⟨r, rfl, hok, Or.inr ⟨hact, (Except.ok.inj h).symm⟩⟩
      · rw [if_neg hact] at h
        cases hj : r.jsonBody with
        | none => rw [hj] at h; cases h
        | some j =>
          rw [hj] at h
          exact ⟨r, rfl, hok, Or.inl ⟨hact, j, hj, (Except.ok.inj h).symm⟩⟩
    · rw [Bool.not_eq_true] at hok
      simp only [hok, Bool.not_false, if_true] at h
      rcases hje : jsGet (r.jsonBody.getD
          (Json.obj [("error".data, Json.str ("Failed to parse error response".data))]))
          ("error".data) with m | errField <;> rw [hje] at h <;> cases h

/-- A non-`chat` action never resolves to the raw response object. -/
theorem postToAction_nonchat_no_stream (action : List Char) (payload : Json)
    (fetch : Json → FetchOutcome) (r : FetchResponse)
    (ha : action ≠ "chat".data) :
    postToAction action payload fetch ≠ Except.ok (PostOk.stream r) := by
  intro h
  rcases postToAction_ok_cases action payload fetch _ h with
    ⟨r2, _, _, ⟨_, j, _, hv⟩ | ⟨hact, _⟩⟩
  · cases hv
  · exact ha hact

/-- C9: `solveProblem` never supplies fallback content: when `postToAction`
throws for any reason, it throws the fixed message `Failed to get a valid
response from the AI. Please try again.`, and it resolves with a value only
when the backend responded with a 2xx response whose body is that JSON
value. -/
theorem solveProblem_no_fallback (problem : Json) (language : List Char)
    (fetch : Json → FetchOutcome) :
    (∀ m, postToAction ("solveProblem".data)
        (Json.obj [("problem".data, problem), ("language".data, Json.str language)]) fetch =
          Except.error m →
      solveProblem problem language fetch =
        Except.error ("Failed to get a valid response from the AI. Please try again.".data)) ∧
    (∀ j, solveProblem problem language fetch = Except.ok j →
      ∃ r, fetch (postRequestBody ("solveProblem".data)
          (Json.obj [("problem".data, problem), ("language".data, Json.str language)])) =
            FetchOutcome.response r ∧
        200 ≤ r.status ∧ r.status < 300 ∧ r.jsonBody = some j) := by
  constructor
  · intro m h
    simp [solveProblem, h]
  · intro j h
    unfold solveProblem at h
    cases hpa : postToAction ("solveProblem".data)
        (Json.obj [("problem".data, problem), ("language".data, Json.str language)]) fetch with
    | error m => rw [hpa] at h; cases h
    | ok v =>
      rw [hpa] at h
      cases v with
      | stream r =>
        exact absurd hpa (postToAction_nonchat_no_stream _ _ _ _ (by decide))
      | json j2 =>
        have hj : j2 = j := Except.ok.inj h
        subst hj
        rcases postToAction_ok_cases _ _ _ _ hpa with
          ⟨r, hf, hok, ⟨_, j3, hbody, hv⟩ | ⟨hact, _⟩⟩
        · have : j3 = j2 := PostOk.json.inj hv.symm
          subst this
          rw [FetchResponse.ok] at hok
          simp only [Bool.and_eq_true, decide_eq_true_eq] at hok
          exact ⟨r, hf, hok.1, hok.2, hbody⟩
        · exact absurd hact (by decide)

/-- Witness for C9 at concrete fetch outcomes: a network error yields the
fixed thrown message; a 200 JSON response resolves and the backend facts
hold of it. -/
theorem solveProblem_no_fallback_witness :
    (solveProblem (Json.str ("1+1".data)) ("en".data)
        (fun _ => FetchOutcome.networkError ("boom".data)) =
      Except.error ("Failed to get a valid response from the AI. Please try again.".data)) ∧
    (∃ r, (fun _ => FetchOutcome.response
        ({ status := 200, statusText := "OK".data,
           jsonBody := some (Json.obj []), bodyChunks := [] } : FetchResponse))
        (postRequestBody ("solveProblem".data)
          (Json.obj [("problem".data, Json.str ("1+1".data)), ("language".data, Json.str ("en".data))])) =
            FetchOutcome.response r ∧
      200 ≤ r.status ∧ r.status < 300 ∧ r.jsonBody = some (Json.obj [])) :=
  ⟨(solveProblem_no_fallback (Json.str ("1+1".data)) ("en".data)
      (fun _ => FetchOutcome.networkError ("boom".data))).1 ("boom".data) rfl,
   (solveProblem_no_fallback (Json.str ("1+1".data)) ("en".data)
      (fun _ => FetchOutcome.response
        { status := 200, statusText := "OK".data,
          jsonBody := some (Json.obj []), bodyChunks := [] })).2 (Json.obj []) rfl⟩

/-- A string trims to empty exactly when all its characters are
whitespace. -/
theorem trimL_eq_nil_iff (cs : List Char) :
    trimL cs = [] ↔ ∀ c ∈ cs, isWsJs c = true := by
  unfold trimL
  constructor
  · intro h c hc
    rw [List.reverse_eq_nil_iff, List.dropWhile_eq_nil_iff] at h
    by_cases hmem : c ∈ cs.dropWhile isWsJs
    · exact h c (List.mem_reverse.mpr hmem)
    · have hsplit : cs.takeWhile isWsJs ++ cs.dropWhile isWsJs = cs :=
        List.takeWhile_append_dropWhile isWsJs cs
      rw [← hsplit] at hc
      rcases List.mem_append.mp hc with h1 | h2
      · exact List.mem_takeWhile_imp h1
      · exact absurd h2 hmem
  · intro h
    have h1 : cs.dropWhile isWsJs = [] :=
      List.dropWhile_eq_nil_iff.mpr fun x hx => h x hx
    simp [h1]

/-- `skipWs` on an all-whitespace string leaves nothing, or leaves a string
headed by a vertical tab or form feed (JavaScript whitespace that is not
JSON whitespace). -/
theorem skipWs_all_ws (cs : List Char) (h : ∀ c ∈ cs, isWsJs c = true) :
    skipWs cs = [] ∨
      ∃ rest, skipWs cs = '\x0b' :: rest ∨ skipWs cs = '\x0c' :: rest := by
  induction cs with
  | nil => exact Or.inl rfl
  | cons c cs ih =>
    have hc := h c (List.mem_cons_self _ _)
    by_cases hj : isWsJson c = true
    · simp only [skipWs, hj, if_true]
      exact ih fun x hx => h x (List.mem_cons_of_mem _ hx)
    · have hcc : c = '\x0b' ∨ c = '\x0c' := by
        simp only [isWsJs, Bool.or_eq_true, decide_eq_true_eq] at hc
        simp only [isWsJson, Bool.or_eq_true, decide_eq_true_eq] at hj
        push_neg at hj
        rcases hc with h1 | h1 | h1 | h1 | h1 | h1 <;> simp_all
      simp only [skipWs, hj, if_false]
      rcases hcc with rfl | rfl
      · exact Or.inr ⟨cs, Or.inl rfl⟩
      · exact Or.inr ⟨cs, Or.inr rfl⟩

/-- One-step unfolding of the value parser at positive fuel. -/
theorem parseVal_succ_eq (fuel : Nat) (cs : List Char) :
    parseVal (fuel+1) cs =
      match skipWs cs with
      | '"' :: rest =>
        match parseStringBody rest with
        | none => none
        | some (s, r) => some (Json.str s, r)
      | '\x7b' :: rest =>
        match skipWs rest with
        | '\x7d' :: r => some (Json.obj [], r)
        | other => parseMembers fuel [] other
      | '[' :: rest =>
        match skipWs rest with
        | ']' :: r => some (Json.arr [], r)
        | other => parseElems fuel [] other
      | 't' :: 'r' :: 'u' :: 'e' :: rest => some (Json.bool true, rest)
      | 'f' :: 'a' :: 'l' :: 's' :: 'e' :: rest => some (Json.bool false, rest)
      | 'n' :: 'u' :: 'l' :: 'l' :: rest => some (Json.null, rest)
      | other =>
        match parseNumber other with
        | none => none
        | some (raw, r) => some (Json.num raw, r) := rfl

/-- The parser yields nothing when the whole input is skipped whitespace or
starts with a vertical tab or form feed. -/
theorem parseVal_ws_head (fuel : Nat) (cs : List Char)
    (h : skipWs cs = [] ∨ ∃ rest, skipWs cs = '\x0b' :: rest ∨ skipWs cs = '\x0c' :: rest) :
    parseVal fuel cs = none := by
  cases fuel with
  | zero => rfl
  | succ n =>
    rcases h with h | ⟨rest, h | h⟩ <;> rw [parseVal_succ_eq, h] <;> rfl

/-- `JSON.parse` fails on a line of pure whitespace. -/
theorem parseL_of_all_ws (line : List Char) (h : ∀ c ∈ line, isWsJs c = true) :
    parseL line = none := by
  have : parseVal (line.length + 1) line = none :=
    parseVal_ws_head _ _ (skipWs_all_ws line h)
  simp [parseL, this]

/-- C10: the chat client\'s per-line handling is total over arbitrary line
content: a blank line, a line that is not valid JSON, a line whose `text`
access throws or yields `undefined`, and a line with a falsy `text` all
leave the accumulated model text unchanged; only a line parsing to an
object with a truthy `text` extends the concatenation, by that text. -/
theorem reader_skips_bad_lines (acc line : List Char) :
    (trimL line = [] → processLine acc line = acc) ∧
    (parseL line = none → processLine acc line = acc) ∧
    (∀ chunk m, parseL line = some chunk →
      jsGet chunk ("text".data) = Except.error m → processLine acc line = acc) ∧
    (∀ chunk, parseL line = some chunk →
      jsGet chunk ("text".data) = Except.ok none → processLine acc line = acc) ∧
    (∀ chunk v, parseL line = some chunk →
      jsGet chunk ("text".data) = Except.ok (some v) → truthy v = false →
      processLine acc line = acc) ∧
    (∀ chunk v, parseL line = some chunk →
      jsGet chunk ("text".data) = Except.ok (some v) → truthy v = true →
      processLine acc line = acc ++ jsToString v) := by
  have key : ∀ chunk, parseL line = some chunk → trimL line ≠ [] := by
    intro chunk hp hnil
    rw [parseL_of_all_ws line ((trimL_eq_nil_iff line).mp hnil)] at hp
    cases hp
  refine ⟨?_, ?_, ?_, ?_, ?_, ?_⟩
  · intro h
    simp [processLine, h]
  · intro h
    simp [processLine, h]
  · intro chunk m hp hj
    simp [processLine, key chunk hp, hp, hj]
  · intro chunk hp hj
    simp [processLine, key chunk hp, hp, hj]
  · intro chunk v hp hj htr
    simp [processLine, key chunk hp, hp, hj, htr]
  · intro chunk v hp hj htr
    simp [processLine, key chunk hp, hp, hj, htr]

/-- Witness for C10: a malformed line is skipped; a well-formed record with
truthy text is appended. -/
theorem reader_skips_bad_lines_witness :
    (processLine ("A".data) ("not json".data) = "A".data) ∧
    (processLine ("A".data) ("\x7b\"text\":\"B\"\x7d".data) =
      "A".data ++ jsToString (Json.str ("B".data))) :=
  ⟨(reader_skips_bad_lines ("A".data) ("not json".data)).2.1 rfl,
   (reader_skips_bad_lines ("A".data) ("\x7b\"text\":\"B\"\x7d".data)).2.2.2.2.2
      (Json.obj [("text".data, Json.str ("B".data))]) (Json.str ("B".data)) rfl rfl rfl⟩

/-- Round trip: parsing a string body undoes the escaping, up to the
closing quote. -/
theorem psb_escape (t : List Char) :
    ∀ rest, parseStringBody (escapeL t ++ '"' :: rest) = some (t, rest) := by
  induction t with
  | nil => intro rest; rfl
  | cons c cs ih =>
    intro rest
    have hstep : escapeL (c :: cs) ++ '"' :: rest =
        escapeChar c ++ (escapeL cs ++ '"' :: rest) := by
      simp [escapeL]
    rw [hstep]
    unfold escapeChar
    split_ifs with h1 h2 h3 h4 h5 h6 h7
    · subst h1; simp [parseStringBody, unescape, ih rest]
    · subst h2; simp [parseStringBody, unescape, ih rest]
    · subst h3; simp [parseStringBody, unescape, ih rest]
    · subst h4; simp [parseStringBody, unescape, ih rest]
    · subst h5; simp [parseStringBody, unescape, ih rest]
    · subst h6; simp [parseStringBody, unescape, ih rest]
    · subst h7; simp [parseStringBody, unescape, ih rest]
    · rw [List.singleton_append]
      simp [parseStringBody, ih rest, h1, h2]

/-- One-step unfolding of the value parser at a string literal. -/
theorem parseVal_str_eq (fuel : Nat) (body : List Char) :
    parseVal (fuel+1) ('"' :: body) =
      match parseStringBody body with
      | none => none
      | some (s, r) => some (Json.str s, r) := rfl

/-- One-step unfolding of the value parser at an object whose first member
starts immediately. -/
theorem parseVal_objStart_eq (fuel : Nat) (rest : List Char) :
    parseVal (fuel+1) ('\x7b' :: '"' :: rest) = parseMembers fuel [] ('"' :: rest) := rfl

/-- One-step unfolding of the member parser at a quoted key. -/
theorem parseMembers_keyStart_eq (fuel : Nat) (acc : List (List Char × Json)) (body : List Char) :
    parseMembers (fuel+1) acc ('"' :: body) =
      match parseStringBody body with
      | none => none
      | some (key, r1) =>
        match skipWs r1 with
        | ':' :: r2 =>
          match parseVal fuel r2 with
          | none => none
          | some (v, r3) =>
            match skipWs r3 with
            | ',' :: r4 => parseMembers fuel (acc ++ [(key, v)]) r4
            | '\x7d' :: r4 => some (Json.obj (acc ++ [(key, v)]), r4)
            | _ => none
        | _ => none := rfl

/-- The parser applied to a serialised text record yields exactly the
one-field object, consuming the whole input. -/
theorem parseVal_record (n : Nat) (t : List Char) :
    parseVal (n + 1 + 1 + 1) (stringifyTextRecord t) =
      some (Json.obj [(['t', 'e', 'x', 't'], Json.str t)], []) := by
  have hv : parseVal (n + 1) ('"' :: (escapeL t ++ ['"', '\x7d'])) =
      some (Json.str t, ['\x7d']) := by
    rw [parseVal_str_eq, psb_escape t ['\x7d']]
  have hk : parseStringBody ('t' :: 'e' :: 'x' :: 't' :: '"' :: ':' :: '"' ::
      (escapeL t ++ ['"', '\x7d'])) =
      some (['t', 'e', 'x', 't'], ':' :: '"' :: (escapeL t ++ ['"', '\x7d'])) :=
    psb_escape ['t', 'e', 'x', 't'] (':' :: '"' :: (escapeL t ++ ['"', '\x7d']))
  have hrec : stringifyTextRecord t =
      '\x7b' :: '"' :: ('t' :: 'e' :: 'x' :: 't' :: '"' :: ':' :: '"' :: (escapeL t ++ ['"', '\x7d'])) := rfl
  have hs1 : skipWs (':' :: '"' :: (escapeL t ++ ['"', '\x7d'])) =
      ':' :: '"' :: (escapeL t ++ ['"', '\x7d']) := rfl
  have hs2 : skipWs ['\x7d'] = ['\x7d'] := rfl
  rw [hrec, parseVal_objStart_eq, parseMembers_keyStart_eq, hk]
  simp only [hs1, hv, hs2, List.nil_append]

/-- `JSON.parse` applied to a serialised text record yields exactly the
one-field object. -/
theorem parseL_record (t : List Char) :
    parseL (stringifyTextRecord t) = some (Json.obj [(['t', 'e', 'x', 't'], Json.str t)]) := by
  unfold parseL
  have hlen : (stringifyTextRecord t).length + 1 =
      ((escapeL t).length + 9) + 1 + 1 + 1 := by
    simp [stringifyTextRecord]
  rw [hlen, parseVal_record ((escapeL t).length + 9) t]
  rfl

/-- `splitNl` never returns the empty list. -/
theorem splitNl_ne_nil (cs : List Char) : splitNl cs ≠ [] := by
  induction cs with
  | nil => simp [splitNl]
  | cons c cs ih =>
    simp only [splitNl]
    split_ifs
    · simp
    · cases h : splitNl cs <;> simp

/-- No piece produced by `splitNl` contains a newline. -/
theorem splitNl_no_nl (cs : List Char) : ∀ l ∈ splitNl cs, '\n' ∉ l := by
  induction cs with
  | nil =>
    intro l hl
    simp [splitNl] at hl
    subst hl
    simp
  | cons c cs ih =>
    intro l hl
    by_cases hc : c = '\n'
    · subst hc
      simp only [splitNl, if_pos rfl] at hl
      rcases List.mem_cons.mp hl with rfl | hl2
      · simp
      · exact ih l hl2
    · simp only [splitNl, if_neg hc] at hl
      cases h : splitNl cs with
      | nil => exact absurd h (splitNl_ne_nil cs)
      | cons p ps =>
        rw [h] at hl
        rcases List.mem_cons.mp hl with rfl | hl2
        · intro hmem
          rcases List.mem_cons.mp hmem with heq | hmem2
          · exact hc heq.symm
          · exact ih p (h ▸ List.mem_cons_self p ps) hmem2
        · exact ih l (h ▸ List.mem_cons_of_mem p hl2)

/-- A newline-free string is a single piece. -/
theorem splitNl_eq_single (buf : List Char) (h : '\n' ∉ buf) : splitNl buf = [buf] := by
  induction buf with
  | nil => rfl
  | cons c cs ih =>
    have hc : c ≠ '\n' := fun hh => h (hh ▸ List.mem_cons_self c cs)
    have ih2 := ih fun hm => h (List.mem_cons_of_mem c hm)
    simp only [splitNl, if_neg hc, ih2]

/-- Splitting after a newline-free prefix followed by a newline peels off
the prefix as one piece. -/
theorem splitNl_append_nl (buf rest : List Char) (h : '\n' ∉ buf) :
    splitNl (buf ++ '\n' :: rest) = buf :: splitNl rest := by
  induction buf with
  | nil => simp [splitNl]
  | cons c cs ih =>
    have hc : c ≠ '\n' := fun hh => h (hh ▸ List.mem_cons_self c cs)
    have ih2 := ih fun hm => h (List.mem_cons_of_mem c hm)
    simp only [List.cons_append, splitNl, List.append_eq, if_neg hc, ih2]

/-- Processing one chunk through the buffered reader equals processing its
characters one at a time, provided the buffer holds no newline. -/
theorem processChunk_eq_foldl (chunk : List Char) :
    ∀ buf acc : List Char, '\n' ∉ buf →
      processChunk { buffer := buf, acc := acc } chunk =
        chunk.foldl stepChar { buffer := buf, acc := acc } := by
  induction chunk with
  | nil =>
    intro buf acc h
    simp [processChunk, splitNl_eq_single buf h]
  | cons c cs ih =>
    intro buf acc h
    by_cases hc : c = '\n'
    · subst hc
      have hpc : processChunk { buffer := buf, acc := acc } ('\n' :: cs) =
          processChunk { buffer := [], acc := processLine acc buf } cs := by
        simp only [processChunk, splitNl_append_nl buf cs h, List.nil_append]
        cases hsp : splitNl cs with
        | nil => exact absurd hsp (splitNl_ne_nil cs)
        | cons p ps => simp
      rw [hpc, ih [] (processLine acc buf) (by simp)]
      simp [stepChar]
    · have hnn : '\n' ∉ buf ++ [c] := by
        intro hm
        rcases List.mem_append.mp hm with hm1 | hm2
        · exact h hm1
        · simp at hm2
          exact hc hm2.symm
      have hpc : processChunk { buffer := buf, acc := acc } (c :: cs) =
          processChunk { buffer := buf ++ [c], acc := acc } cs := by
        simp only [processChunk]
        rw [show buf ++ c :: cs = (buf ++ [c]) ++ cs by simp]
      rw [hpc, ih (buf ++ [c]) acc hnn]
      simp [stepChar, hc]

/-- The reader buffer never holds a newline after a chunk is processed. -/
theorem processChunk_buffer_no_nl (st : ReaderState) (ch : List Char) :
    '\n' ∉ (processChunk st ch).buffer := by
  simp only [processChunk]
  cases h : (splitNl (st.buffer ++ ch)).getLast? with
  | none => simp
  | some l =>
    simp only [Option.getD_some]
    obtain ⟨hne, heq⟩ := List.mem_getLast?_eq_getLast (Option.mem_def.mpr h)
    rw [heq]
    exact splitNl_no_nl (st.buffer ++ ch) _ (List.getLast_mem hne)

/-- Chunk-boundary independence: folding the buffered reader over any list
of chunks equals folding the character-level reader over their
concatenation. -/
theorem foldl_processChunk_eq (chunks : List (List Char)) :
    ∀ st : ReaderState, '\n' ∉ st.buffer →
      chunks.foldl processChunk st = chunks.flatten.foldl stepChar st := by
  induction chunks with
  | nil => intro st h; simp
  | cons ch chs ih =>
    intro st h
    obtain ⟨buf, acc⟩ := st
    simp only [List.foldl_cons, List.flatten_cons, List.foldl_append]
    rw [← processChunk_eq_foldl ch buf acc h]
    exact ih _ (processChunk_buffer_no_nl _ ch)

/-- Folding the character-level reader over a newline-free string only
extends the buffer. -/
theorem foldl_stepChar_no_nl (cs : List Char) :
    ∀ buf acc : List Char, '\n' ∉ cs →
      cs.foldl stepChar { buffer := buf, acc := acc } =
        { buffer := buf ++ cs, acc := acc } := by
  induction cs with
  | nil => intro buf acc h; simp
  | cons c cs ih =>
    intro buf acc h
    have hc : c ≠ '\n' := fun hh => h (hh ▸ List.mem_cons_self c cs)
    simp only [List.foldl_cons, stepChar, if_neg hc]
    rw [ih (buf ++ [c]) acc fun hm => h (List.mem_cons_of_mem c hm)]
    simp

/-- Escaping never produces a newline. -/
theorem no_nl_escapeChar (c : Char) : '\n' ∉ escapeChar c := by
  unfold escapeChar
  split_ifs with h1 h2 h3 h4 h5 h6 h7 <;> simp_all
  exact fun hh => h3 hh.symm

/-- An escaped string contains no newline. -/
theorem no_nl_escapeL (t : List Char) : '\n' ∉ escapeL t := by
  induction t with
  | nil => simp [escapeL]
  | cons c cs ih =>
    simp only [escapeL, List.mem_append]
    rintro (h | h)
    · exact no_nl_escapeChar c h
    · exact ih h

/-- A serialised text record contains no newline. -/
theorem no_nl_record (t : List Char) : '\n' ∉ stringifyTextRecord t := by
  have hrec : stringifyTextRecord t =
      ['\x7b', '"', 't', 'e', 'x', 't', '"', ':', '"'] ++ (escapeL t ++ ['"', '\x7d']) := rfl
  rw [hrec]
  intro h
  rcases List.mem_append.mp h with h1 | h2
  · exact absurd h1 (by decide)
  · rcases List.mem_append.mp h2 with h3 | h4
    · exact no_nl_escapeL t h3
    · exact absurd h4 (by decide)

/-- A serialised text record does not trim to the empty string. -/
theorem trimL_record_ne_nil (t : List Char) : trimL (stringifyTextRecord t) ≠ [] := by
  intro h
  have hall := (trimL_eq_nil_iff (stringifyTextRecord t)).mp h
  have hmem : '\x7b' ∈ stringifyTextRecord t := by
    have hrec : stringifyTextRecord t =
        '\x7b' :: ('"' :: 't' :: 'e' :: 'x' :: 't' :: '"' :: ':' :: '"' ::
          (escapeL t ++ ['"', '\x7d'])) := rfl
    rw [hrec]
    exact List.mem_cons_self _ _
  exact absurd (hall '\x7b' hmem) (by decide)

/-- The loop body applied to a serialised text record appends exactly its
text (an empty text is falsy and skipped, which appends nothing). -/
theorem processLine_record (acc t : List Char) :
    processLine acc (stringifyTextRecord t) = acc ++ t := by
  unfold processLine
  rw [if_neg (trimL_record_ne_nil t), parseL_record t]
  by_cases ht : t = []
  · subst ht
    simp [jsGet, lookupField, truthy]
  · have htr : truthy (Json.str t) = true := by simp [truthy, ht]
    simp [jsGet, lookupField, htr, jsToString]

/-- Character-level processing of a whole record stream accumulates the
concatenation of the texts, leaving an empty buffer. -/
theorem foldl_stepChar_records (texts : List (List Char)) :
    ∀ acc : List Char,
      ((texts.map fun t => stringifyTextRecord t ++ ['\n']).flatten).foldl stepChar
          { buffer := [], acc := acc } =
        { buffer := [], acc := acc ++ texts.flatten } := by
  induction texts with
  | nil => intro acc; simp
  | cons t ts ih =>
    intro acc
    simp only [List.map_cons, List.flatten_cons, List.foldl_append]
    rw [foldl_stepChar_no_nl (stringifyTextRecord t) [] acc (no_nl_record t)]
    simp only [List.foldl_cons, List.foldl_nil, stepChar, if_pos rfl, if_true, List.nil_append]
    rw [processLine_record acc t, ih (acc ++ t)]
    simp

/-- C6: the chat client reassembles exactly the in-order concatenation of
the streamed text deltas, for EVERY partition of the byte stream into
chunks — the accumulated model text is independent of chunk boundaries. -/
theorem chat_stream_reassembly (texts chunks : List (List Char))
    (h : chunks.flatten = (texts.map fun t => stringifyTextRecord t ++ ['\n']).flatten) :
    (runReader chunks).acc = texts.flatten := by
  unfold runReader
  rw [foldl_processChunk_eq chunks { buffer := [], acc := [] } (by simp), h,
    foldl_stepChar_records texts []]
  simp

/-- Witness for C6: the two-record stream for texts `a\nb` (with an escaped
newline) and `!`, split mid-record after 7 characters, reassembles to
`a\nb!`. -/
theorem chat_stream_reassembly_witness :
    (runReader
      [(((["a\nb".data, "!".data] : List (List Char)).map
          fun t => stringifyTextRecord t ++ ['\n']).flatten.take 7),
       (((["a\nb".data, "!".data] : List (List Char)).map
          fun t => stringifyTextRecord t ++ ['\n']).flatten.drop 7)]).acc =
      (["a\nb".data, "!".data] : List (List Char)).flatten :=
  chat_stream_reassembly (["a\nb".data, "!".data]) _ (by simp)

end AiMath
